import Mathlib

/-!
Shallow embedding of the authentication and session-lifecycle subsystem of the
honestreviews backend (`backend/utilities/auth_utils.py`,
`backend/utilities/auth_dependencies.py`, `backend/routers/auth_routes.py`,
`backend/models.py`, `backend/schemas.py`), together with theorems settling the
spec claims about it.

Modelling conventions:
- timestamps are integers (seconds); `datetime.now(timezone.utc)` becomes an
  explicit `nowTs : Int` parameter;
- randomness (`secrets.token_urlsafe`, `uuid4`, bcrypt salts) becomes explicit
  parameters holding the freshly generated values;
- the database is a `DB` value of row lists; SQL statements are translated to
  the corresponding list operations, with `scalar_one_or_none` modelled
  faithfully (none / the row / MultipleResultsFound);
- a handler is a function `... → DB → (Except PyError α) × DB` returning the
  HTTP-level outcome and the post-state (an exception raised before any write
  leaves the state unchanged, like the Python code, whose writes are only
  committed at the end of the happy path).
-/

deriving instance DecidableEq for Except

namespace HonestReviews

/-- Model of a passlib bcrypt digest string: either a well-formed bcrypt hash
(`$2b$...`, determined by its salt and the hashed secret) or an arbitrary
malformed string that is not a recognizable bcrypt hash. -/
inductive BcryptDigest where
  | wellFormed (salt : Nat) (secret : String)
  | malformed (text : String)
deriving DecidableEq

/-- Detail payload of a FastAPI `HTTPException`: a plain string, or the
structured dict built by `get_current_user` for expired tokens. -/
inductive HttpDetail where
  | text (s : String)
  | expiredInfo (message : String) (tokenIat tokenExp : Option String) (serverTime : String)
deriving DecidableEq

/-- A raised `HTTPException`: status code, detail, and whether the
`WWW-Authenticate: Bearer` header is attached (as `_raise_401` does). -/
structure HttpError where
  status : Nat
  detail : HttpDetail
  hasBearerHeader : Bool
deriving DecidableEq

/-- Errors a handler can terminate with: an `HTTPException`, an uncaught
`MissingPepperError` (from `_get_pepper_bytes`), an uncaught `ValueError`
(from passlib on a malformed hash), or SQLAlchemy's `MultipleResultsFound`
(from `scalar_one_or_none`). -/
inductive PyError where
  | http (e : HttpError)
  | missingPepper
  | valueError
  | multipleResults
deriving DecidableEq

/-- `HTTPException(status_code=s, detail=d)` without extra headers, as raised
throughout `auth_routes.py`. -/
def httpErr (status : Nat) (detail : String) : PyError :=
  .http { status := status, detail := .text detail, hasBearerHeader := false }

/-- passlib `bcrypt.hash`: salted one-way hash; the digest embeds the salt. -/
def bcryptHash (salt : Nat) (plain : String) : BcryptDigest :=
  .wellFormed salt plain

/-- passlib `bcrypt.verify`: on a well-formed digest it recomputes with the
embedded salt and returns the boolean comparison; on a string that is not a
recognizable bcrypt hash it raises `ValueError` (passlib's documented
behaviour), which we model as `.error .valueError`. -/
def bcryptVerify (plain : String) (hashed : BcryptDigest) : Except PyError Bool :=
  match hashed with
  | .wellFormed salt secret => .ok (bcryptHash salt plain == bcryptHash salt secret)
  | .malformed _ => .error .valueError

/-- `auth_utils.hash_password`. -/
def hash_password (salt : Nat) (plain : String) : BcryptDigest :=
  bcryptHash salt plain

/-- `auth_utils.verify_password`: direct pass-through to `bcrypt.verify`. -/
def verify_password (plain : String) (hashed : BcryptDigest) : Except PyError Bool :=
  bcryptVerify plain hashed

/-- `auth_utils.hash_recovery_code`. -/
def hash_recovery_code (salt : Nat) (raw : String) : BcryptDigest :=
  bcryptHash salt raw

/-- `auth_utils.verify_recovery_code`: direct pass-through to `bcrypt.verify`. -/
def verify_recovery_code (raw : String) (hashed : BcryptDigest) : Except PyError Bool :=
  bcryptVerify raw hashed

/-- The process environment variables the auth modules read. -/
structure Env where
  APP_JWT_SECRET : Option String
  REFRESH_TOKEN_PEPPER : Option String
deriving DecidableEq

/-- The module-import-time (process startup) checks performed by
`auth_utils.py` and `auth_dependencies.py`: both read `APP_JWT_SECRET` and
raise `RuntimeError` if it is unset or empty (`if not APP_JWT_SECRET`).
No other secret is checked at import time. -/
def moduleImportChecks (env : Env) : Except String Unit :=
  match env.APP_JWT_SECRET with
  | none => .error "APP_JWT_SECRET must be set in .env"
  | some s => if s = "" then .error "APP_JWT_SECRET must be set in .env" else .ok ()

/-- `auth_utils._get_pepper_bytes`: uses `override_pepper` if given, otherwise
reads `REFRESH_TOKEN_PEPPER` from the environment at call time; raises
`MissingPepperError` when the result is falsy (absent or empty). -/
def getPepperBytes (env : Env) (overridePepper : Option String) : Except PyError String :=
  let pepper :=
    match overridePepper with
    | some p => some p
    | none => env.REFRESH_TOKEN_PEPPER
  match pepper with
  | none => .error .missingPepper
  | some p => if p = "" then .error .missingPepper else .ok p

/-- Abstract HMAC-SHA256 hex digest keyed by the pepper (injective in the
message for a fixed key, which is the collision-freedom idealization). -/
def hmacSha256Hex (key msg : String) : String :=
  "hmac-sha256:" ++ key ++ ":" ++ msg

/-- `auth_utils.hmac_refresh_token_hex`: obtains the pepper (raising
`MissingPepperError` if absent) and returns the keyed digest of the token. -/
def hmac_refresh_token_hex (env : Env) (refreshToken : String)
    (overridePepper : Option String) : Except PyError String :=
  match getPepperBytes env overridePepper with
  | .error e => .error e
  | .ok p => .ok (hmacSha256Hex p refreshToken)

/-- JWT payload claims used by this subsystem. -/
structure JwtClaims where
  sub : Option String
  iat : Option Int
  exp : Option Int
  username : Option String
deriving DecidableEq

/-- A JWT: its payload plus the key its signature was produced with. -/
structure Jwt where
  claims : JwtClaims
  signedWith : String
deriving DecidableEq

/-- `auth_routes.ACCESS_EXPIRES_MINUTES` (env default `"15"`). -/
def ACCESS_EXPIRES_MINUTES : Int := 15

/-- `auth_routes.DEFAULT_REFRESH_EXPIRES_DAYS` (env default `"30"`). -/
def DEFAULT_REFRESH_EXPIRES_DAYS : Int := 30

def daysToSeconds (d : Int) : Int := d * 86400

/-- `auth_utils.create_access_token`: payload with `sub`, `iat`,
`exp = now + TTL`, updated with the caller's extra claims (here always
`{"username": ...}`), signed with the configured key. -/
def create_access_token (key : String) (nowTs : Int) (subject : String)
    (extraUsername : Option String) : Jwt :=
  { claims :=
      { sub := some subject
        iat := some nowTs
        exp := some (nowTs + ACCESS_EXPIRES_MINUTES * 60)
        username := extraUsername }
    signedWith := key }

inductive JwtDecodeError where
  | expiredSignature
  | invalidToken
deriving DecidableEq

/-- PyJWT `jwt.decode(token, key, algorithms=[...])`: verifies the signature
first (failure raises `InvalidTokenError`), then the `exp` claim (raising
`ExpiredSignatureError` when it is in the past). -/
def jwtDecode (token : Jwt) (key : String) (nowTs : Int) : Except JwtDecodeError JwtClaims :=
  if token.signedWith ≠ key then .error .invalidToken
  else
    match token.claims.exp with
    | some e => if e ≤ nowTs then .error .expiredSignature else .ok token.claims
    | none => .ok token.claims

/-- Python truthiness of `expires_at and expires_at < now`: a NULL timestamp
is falsy, so no expiry check happens for it. -/
def pyExpiredCheck (expiresAt : Option Int) (nowTs : Int) : Bool :=
  match expiresAt with
  | some e => decide (e < nowTs)
  | none => false

/-- `models.Profile` (the columns this subsystem touches). -/
structure ProfileRow where
  id : String
  username : String
  display_name : Option String
  password_hash : Option BcryptDigest
deriving DecidableEq

/-- `models.UserSessionPrivacy`. -/
structure SessionRow where
  id : String
  profile_id : Option String
  refresh_token_hash : String
  created_at : Int
  last_used_at : Option Int
  expires_at : Option Int
  revoked : Bool
  updated_at : Int
deriving DecidableEq

/-- `models.RecoveryCode`. -/
structure RecoveryRow where
  id : String
  profile_id : String
  code_hash : BcryptDigest
  created_at : Int
  consumed_at : Option Int
  expires_at : Option Int
deriving DecidableEq

/-- The persisted state shared by the auth flows. -/
structure DB where
  profiles : List ProfileRow
  sessions : List SessionRow
  recovery_codes : List RecoveryRow
deriving DecidableEq

/-- SQLAlchemy `Result.scalar_one_or_none` applied to the rows matched by a
select: `none` for zero rows, the row for one, `MultipleResultsFound` (an
uncaught exception) otherwise. -/
def scalarOneOrNone {α : Type} (rows : List α) : Except PyError (Option α) :=
  match rows with
  | [] => .ok none
  | [r] => .ok (some r)
  | _ => .error .multipleResults

/-- Python truthiness of `profile.password_hash` (a nullable Text column):
falsy when NULL or the empty string. -/
def pwHashFalsy : Option BcryptDigest → Bool
  | none => true
  | some (.malformed s) => s == ""
  | some (.wellFormed _ _) => false

/-- The dict built and returned by the `register` handler (line 80 of
`auth_routes.py`): profile fields plus the raw codes under the `codes` key. -/
structure RegisterHandlerDict where
  id : String
  username : String
  display_name : Option String
  codes : List String
deriving DecidableEq

/-- `schemas.RegisterResponse`: the declared response model of
`POST /api/auth/register` — `id`, `username`, `display_name` only; it has no
`codes` field. -/
structure RegisterResponse where
  id : String
  username : String
  display_name : Option String
deriving DecidableEq

/-- FastAPI serialization of the handler's return value through
`response_model=RegisterResponse`: the returned dict is validated against the
model and the body keeps exactly the model's fields, dropping extra keys. -/
def serializeRegisterResponse (d : RegisterHandlerDict) : RegisterResponse :=
  { id := d.id, username := d.username, display_name := d.display_name }

/-- Body of `schemas.LoginResponse`, returned by both `login` and `refresh`. -/
structure TokenResponse where
  access_token : Jwt
  refresh_token : String
  expires_in : Int
  token_type : String
deriving DecidableEq

/-- `auth_routes.register`. Randomness made explicit: `newProfileId` is the
fresh profile uuid, `pwSalt` the bcrypt salt for the password, `rawCodes` the
list produced by `generate_recovery_codes()`, `codeSalts i` / `codeIds i` the
bcrypt salt and row uuid used for the i-th code. The first commit raises
`IntegrityError` (rolled back, HTTP 400) exactly when the unique `username`
column is violated. -/
def register (nowTs : Int) (newProfileId : String) (pwSalt : Nat)
    (rawCodes : List String) (codeSalts : Nat → Nat) (codeIds : Nat → String)
    (username password : String) (displayName : Option String)
    (db : DB) : (Except PyError RegisterHandlerDict) × DB :=
  if password.length < 8 then
    (.error (httpErr 400 "Password must be at least 8 characters"), db)
  else if db.profiles.any (fun p => p.username == username) then
    (.error (httpErr 400 "Username already exists"), db)
  else
    let newProfile : ProfileRow :=
      { id := newProfileId, username := username, display_name := displayName
        password_hash := some (hash_password pwSalt password) }
    let codeRows : List RecoveryRow :=
      rawCodes.enum.map (fun iraw =>
        { id := codeIds iraw.1, profile_id := newProfileId
          code_hash := hash_recovery_code (codeSalts iraw.1) iraw.2
          created_at := nowTs, consumed_at := none
          expires_at := some (nowTs + daysToSeconds 30) })
    let db1 : DB :=
      { db with profiles := db.profiles ++ [newProfile]
                recovery_codes := db.recovery_codes ++ codeRows }
    (.ok { id := newProfileId, username := username, display_name := displayName
           codes := rawCodes }, db1)

/-- `auth_routes.login`. `newRefreshRaw` is the value returned by
`create_refresh_token_raw()`, `newSessionId` the fresh row uuid. The commit of
the session row raises `IntegrityError` exactly when the unique
`refresh_token_hash` column is violated; the handler catches it, rolls back,
and still falls through to the 200 response. -/
def login (env : Env) (nowTs : Int) (newRefreshRaw newSessionId : String)
    (username password : String) (db : DB) : (Except PyError TokenResponse) × DB :=
  match scalarOneOrNone (db.profiles.filter (fun p => p.username == username)) with
  | .error e => (.error e, db)
  | .ok none => (.error (httpErr 401 "Invalid credentials"), db)
  | .ok (some profile) =>
    if pwHashFalsy profile.password_hash then
      (.error (httpErr 401 "Invalid credentials"), db)
    else
      match profile.password_hash with
      | none => (.error (httpErr 401 "Invalid credentials"), db)
      | some ph =>
        match verify_password password ph with
        | .error e => (.error e, db)
        | .ok false => (.error (httpErr 401 "Invalid credentials"), db)
        | .ok true =>
          let accessToken := create_access_token (env.APP_JWT_SECRET.getD "") nowTs
            profile.id (some profile.username)
          match hmac_refresh_token_hex env newRefreshRaw none with
          | .error e => (.error e, db)
          | .ok refreshHash =>
            let sessionRow : SessionRow :=
              { id := newSessionId, profile_id := some profile.id
                refresh_token_hash := refreshHash
                created_at := nowTs, last_used_at := some nowTs
                expires_at := some (nowTs + daysToSeconds DEFAULT_REFRESH_EXPIRES_DAYS)
                revoked := false, updated_at := nowTs }
            let db1 :=
              if db.sessions.any (fun r => r.refresh_token_hash == refreshHash) then db
              else { db with sessions := db.sessions ++ [sessionRow] }
            (.ok { access_token := accessToken, refresh_token := newRefreshRaw
                   expires_in := ACCESS_EXPIRES_MINUTES * 60, token_type := "bearer" }, db1)

/-- The read-and-validate phase of `auth_routes.refresh` (lines 142-161): hash
the presented token, select the row by digest with `revoked == False`, check
expiry, load the owning profile. Returns the presented hash together with the
selected row and profile. -/
def refreshValidate (env : Env) (nowTs : Int) (presented : String) (db : DB) :
    Except PyError (String × SessionRow × ProfileRow) :=
  match hmac_refresh_token_hex env presented none with
  | .error e => .error e
  | .ok presentedHash =>
  match scalarOneOrNone (db.sessions.filter
      (fun r => r.refresh_token_hash == presentedHash && r.revoked == false)) with
  | .error e => .error e
  | .ok none => .error (httpErr 401 "Invalid or revoked refresh token")
  | .ok (some sessionRow) =>
    if pyExpiredCheck sessionRow.expires_at nowTs then
      .error (httpErr 401 "Refresh token expired")
    else
      match scalarOneOrNone (db.profiles.filter (fun p => some p.id == sessionRow.profile_id)) with
      | .error e => .error e
      | .ok none => .error (httpErr 401 "Invalid session")
      | .ok (some profile) => .ok (presentedHash, sessionRow, profile)

/-- The VALUES clause of the rotation update: new digest, refreshed
`last_used_at` / `updated_at` / `expires_at`. -/
def rotateRow (nowTs : Int) (newHash : String) (r : SessionRow) : SessionRow :=
  { r with refresh_token_hash := newHash, last_used_at := some nowTs
           updated_at := nowTs
           expires_at := some (nowTs + daysToSeconds DEFAULT_REFRESH_EXPIRES_DAYS) }

/-- The UPDATE statement of `auth_routes.refresh` (lines 168-174): a single
conditional update matched on the current digest, writing the new digest and
timestamps. Returns the number of rows affected together with the new state;
the handler never reads the row count. -/
def refreshUpdateStep (nowTs : Int) (presentedHash newHash : String) (db : DB) : Nat × DB :=
  let affected := (db.sessions.filter (fun r => r.refresh_token_hash == presentedHash)).length
  let sessions1 := db.sessions.map (fun r =>
    if r.refresh_token_hash == presentedHash then rotateRow nowTs newHash r else r)
  (affected, { db with sessions := sessions1 })

/-- The tail of `auth_routes.refresh` after the validate phase: issue the new
access token, compute the new digest, run the conditional update (ignoring its
row count), and return 200 with the new raw refresh token. -/
def refreshFinish (env : Env) (nowTs : Int) (newRefreshRaw : String)
    (validated : Except PyError (String × SessionRow × ProfileRow)) (db : DB) :
    (Except PyError TokenResponse) × DB :=
  match validated with
  | .error e => (.error e, db)
  | .ok (presentedHash, _sessionRow, profile) =>
    let accessToken := create_access_token (env.APP_JWT_SECRET.getD "") nowTs
      profile.id (some profile.username)
    match hmac_refresh_token_hex env newRefreshRaw none with
    | .error e => (.error e, db)
    | .ok newHash =>
      let stepResult := refreshUpdateStep nowTs presentedHash newHash db
      (.ok { access_token := accessToken, refresh_token := newRefreshRaw
             expires_in := ACCESS_EXPIRES_MINUTES * 60, token_type := "bearer" },
       stepResult.2)

/-- `auth_routes.refresh`, run sequentially (no interference). -/
def refresh (env : Env) (nowTs : Int) (newRefreshRaw presented : String) (db : DB) :
    (Except PyError TokenResponse) × DB :=
  refreshFinish env nowTs newRefreshRaw (refreshValidate env nowTs presented db) db

/-- Two concurrent `refresh` requests A and B presenting the same token, in
the racing interleaving admitted by the backing store (read committed): both
SELECT phases read the initial state, then A's UPDATE commits, then B's UPDATE
runs against A's committed state (where it matches zero rows). -/
def refreshRace (env : Env) (nowTs : Int) (rawA rawB presented : String) (db : DB) :
    (Except PyError TokenResponse) × (Except PyError TokenResponse) × DB :=
  let vA := refreshValidate env nowTs presented db
  let vB := refreshValidate env nowTs presented db
  let stepA := refreshFinish env nowTs rawA vA db
  let stepB := refreshFinish env nowTs rawB vB stepA.2
  (stepA.1, stepB.1, stepB.2)

/-- `auth_routes.logout`: unconditionally UPDATE `revoked=true` on the rows
matching the presented digest and return 204. FastAPI sends no body for a 204
response, so the outcome carries no payload. -/
def logout (env : Env) (nowTs : Int) (presented : String) (db : DB) :
    (Except PyError Unit) × DB :=
  match hmac_refresh_token_hex env presented none with
  | .error e => (.error e, db)
  | .ok presentedHash =>
    let sessions1 := db.sessions.map (fun r =>
      if r.refresh_token_hash == presentedHash then
        { r with revoked := true, updated_at := nowTs }
      else r)
    (.ok (), { db with sessions := sessions1 })

/-- The matching loop of `auth_routes.recover` (lines 221-225): scan the
candidate rows in order, verifying the presented code against each stored
hash, stopping at the first match; a passlib `ValueError` on a malformed
stored hash propagates out of the loop. -/
def findMatch (raw : String) (rows : List RecoveryRow) : Except PyError (Option RecoveryRow) :=
  match rows with
  | [] => .ok none
  | r :: rest =>
    match verify_recovery_code raw r.code_hash with
    | .error e => .error e
    | .ok true => .ok (some r)
    | .ok false => findMatch raw rest

/-- `auth_routes.recover`. `newSalt` is the bcrypt salt for the new password
hash. -/
def recover (nowTs : Int) (newSalt : Nat) (rawCode newPw : String) (db : DB) :
    (Except PyError String) × DB :=
  if newPw.length < 8 then
    (.error (httpErr 400 "Password must be at least 8 characters"), db)
  else
    let candidates := db.recovery_codes.filter (fun r => r.consumed_at.isNone)
    match findMatch rawCode candidates with
    | .error e => (.error e, db)
    | .ok none => (.error (httpErr 401 "Invalid or already used recovery code"), db)
    | .ok (some matched) =>
      if pyExpiredCheck matched.expires_at nowTs then
        (.error (httpErr 401 "Recovery code expired"), db)
      else
        match scalarOneOrNone (db.profiles.filter (fun p => p.id == matched.profile_id)) with
        | .error e => (.error e, db)
        | .ok none => (.error (httpErr 404 "Associated profile not found"), db)
        | .ok (some profile) =>
          let profiles1 := db.profiles.map (fun p =>
            if p.id == profile.id then
              { p with password_hash := some (hash_password newSalt newPw) }
            else p)
          let recs1 := db.recovery_codes.map (fun r =>
            if r.id == matched.id then { r with consumed_at := some nowTs } else r)
          (.ok "Password updated. You may now login using your username and new password.",
           { db with profiles := profiles1, recovery_codes := recs1 })

/-- Best-effort ISO rendering of a unix timestamp claim, as
`_iso_from_claim` produces for integer claims. -/
def isoFromTs (t : Int) : String :=
  "iso:" ++ toString t

/-- `auth_dependencies.get_current_user`: decode the bearer token (signature
first, then expiry), build the structured expiry diagnostic from the
unverified payload on `ExpiredSignatureError`, reject a falsy `sub`, and load
the profile by the subject id. All rejections are 401 with the
`WWW-Authenticate: Bearer` header. -/
def get_current_user (env : Env) (nowTs : Int) (token : Jwt) (db : DB) :
    Except HttpError ProfileRow :=
  let key := env.APP_JWT_SECRET.getD ""
  match jwtDecode token key nowTs with
  | .error .expiredSignature =>
    let payloadNoVerify := token.claims
    .error { status := 401
             detail := .expiredInfo "Token has expired"
               (payloadNoVerify.iat.map isoFromTs) (payloadNoVerify.exp.map isoFromTs)
               (isoFromTs nowTs)
             hasBearerHeader := true }
  | .error .invalidToken =>
    .error { status := 401, detail := .text "Invalid token", hasBearerHeader := true }
  | .ok payload =>
    let subFalsy := match payload.sub with
      | none => true
      | some s => s == ""
    if subFalsy then
      .error { status := 401, detail := .text "Token missing subject (sub) claim"
               hasBearerHeader := true }
    else
      match scalarOneOrNone (db.profiles.filter (fun p => some p.id == payload.sub)) with
      | .error _ =>
        .error { status := 401, detail := .text "Failed to fetch user profile"
                 hasBearerHeader := true }
      | .ok none =>
        .error { status := 401, detail := .text "User not found", hasBearerHeader := true }
      | .ok (some p) => .ok p

/-! Concrete fixtures used by the witness and counterexample theorems. -/

/-- A fully configured environment. -/
def envGood : Env :=
  { APP_JWT_SECRET := some "jwtkey", REFRESH_TOKEN_PEPPER := some "pepper" }

/-- JWT secret present, refresh-token pepper absent. -/
def envNoPepper : Env :=
  { APP_JWT_SECRET := some "jwtkey", REFRESH_TOKEN_PEPPER := none }

def emptyDB : DB := { profiles := [], sessions := [], recovery_codes := [] }

def pAlice : ProfileRow :=
  { id := "alice-id", username := "alice", display_name := none
    password_hash := some (bcryptHash 1 "longpassword1") }

def dbAlice : DB := { profiles := [pAlice], sessions := [], recovery_codes := [] }

/-- An active, unexpired session for `pAlice` whose digest is that of the raw
token `"t0"`. -/
def sActive : SessionRow :=
  { id := "sess1", profile_id := some "alice-id"
    refresh_token_hash := hmacSha256Hex "pepper" "t0"
    created_at := 0, last_used_at := some 0, expires_at := some 1000000
    revoked := false, updated_at := 0 }

def dbSession : DB := { profiles := [pAlice], sessions := [sActive], recovery_codes := [] }

/-- An expired (but unrevoked) session whose digest is that of `"t0"`. -/
def sExpired : SessionRow :=
  { id := "sess2", profile_id := some "alice-id"
    refresh_token_hash := hmacSha256Hex "pepper" "t0"
    created_at := 0, last_used_at := some 0, expires_at := some 10
    revoked := false, updated_at := 0 }

def dbExpired : DB := { profiles := [pAlice], sessions := [sExpired], recovery_codes := [] }

/-- An unconsumed, unexpired recovery code whose owning profile id matches no
profile row. -/
def rcOrphan : RecoveryRow :=
  { id := "rc1", profile_id := "ghost", code_hash := bcryptHash 5 "code0"
    created_at := 0, consumed_at := none, expires_at := some 1000 }

def dbOrphanCode : DB := { profiles := [], sessions := [], recovery_codes := [rcOrphan] }

def rcM : RecoveryRow :=
  { id := "rcM", profile_id := "alice-id", code_hash := bcryptHash 2 "codeM"
    created_at := 0, consumed_at := none, expires_at := some 1000 }

def rcOther1 : RecoveryRow :=
  { id := "rcO1", profile_id := "alice-id", code_hash := bcryptHash 3 "codeO1"
    created_at := 0, consumed_at := none, expires_at := some 1000 }

def rcOther2 : RecoveryRow :=
  { id := "rcO2", profile_id := "alice-id", code_hash := bcryptHash 4 "codeO2"
    created_at := 0, consumed_at := none, expires_at := some 1000 }

def dbRecovery : DB :=
  { profiles := [pAlice], sessions := [], recovery_codes := [rcM, rcOther1, rcOther2] }

end HonestReviews

namespace HonestReviews

/-! Helper lemmas. -/

/-- A list maps to itself under a function that fixes each of its members. -/
theorem map_fixes_of_mem {α : Type} (f : α → α) (l : List α)
    (h : ∀ x ∈ l, f x = x) : l.map f = l := by
  induction l with
  | nil => rfl
  | cons a t ih =>
    simp only [List.map_cons]
    rw [h a (List.mem_cons_self a t), ih (fun x hx => h x (List.mem_cons_of_mem a hx))]

/-- The recovery-code matching loop finds nothing when every candidate hash
verifies to false. -/
theorem findMatch_none (raw : String) (rows : List RecoveryRow)
    (h : ∀ r ∈ rows, verify_recovery_code raw r.code_hash = .ok false) :
    findMatch raw rows = .ok none := by
  induction rows with
  | nil => rfl
  | cons r t ih =>
    have hr := h r (List.mem_cons_self r t)
    simp only [findMatch, hr]
    exact ih (fun x hx => h x (List.mem_cons_of_mem r hx))

/-- A recover request whose code matches no active row fails with 401. -/
theorem recover_no_active_match (nowTs : Int) (salt : Nat) (rawCode newPw : String) (db : DB)
    (hlen : ¬ newPw.length < 8)
    (hfind : findMatch rawCode (db.recovery_codes.filter (fun r => r.consumed_at.isNone)) =
      .ok none) :
    recover nowTs salt rawCode newPw db =
      (.error (httpErr 401 "Invalid or already used recovery code"), db) := by
  simp [recover, hlen, hfind]

/-- A refresh request whose digest matches no unrevoked row fails with 401. -/
theorem refresh_no_active_match (env : Env) (pepper : String) (nowTs : Int)
    (newRaw presented : String) (db : DB)
    (h1 : env.REFRESH_TOKEN_PEPPER = some pepper) (h2 : pepper ≠ "")
    (h3 : db.sessions.filter
      (fun r => r.refresh_token_hash == hmacSha256Hex pepper presented && !r.revoked) = []) :
    refresh env nowTs newRaw presented db =
      (.error (httpErr 401 "Invalid or revoked refresh token"), db) := by
  simp [refresh, refreshFinish, refreshValidate, hmac_refresh_token_hex, getPepperBytes,
    h1, h2, h3, scalarOneOrNone]

/-! ### C6 — Credential Hasher verify behaviour -/

/-- C6 (counterexample): `verify` does throw on a malformed stored digest —
passlib's `bcrypt.verify` raises `ValueError` instead of returning false, and
both `verify_password` and `verify_recovery_code` pass it through. -/
theorem verify_malformed_digest_raises_cex :
    verify_password "anything" (.malformed "not-a-bcrypt-hash") = .error .valueError ∧
    verify_recovery_code "anything" (.malformed "not-a-bcrypt-hash") = .error .valueError := by
  decide

/-- C6 (amended): for a well-formed stored digest, verify returns a boolean
and never throws — a mismatching secret yields false — but on a malformed
stored digest it raises `ValueError` rather than returning false. -/
theorem verify_wellformed_bool_malformed_raises (plain secret junk : String) (salt : Nat)
    (h : plain ≠ secret) :
    verify_password plain (bcryptHash salt secret) = .ok false ∧
    verify_password secret (bcryptHash salt secret) = .ok true ∧
    verify_recovery_code plain (bcryptHash salt secret) = .ok false ∧
    verify_password plain (.malformed junk) = .error .valueError ∧
    verify_recovery_code plain (.malformed junk) = .error .valueError := by
  refine ⟨?_, ?_, ?_, rfl, rfl⟩ <;>
    simp [verify_password, verify_recovery_code, bcryptVerify, bcryptHash, h]

/-- Witness for C6's amended theorem at concrete inputs. -/
theorem verify_wellformed_bool_malformed_raises_witness :
    verify_password "aaa" (bcryptHash 3 "bbb") = .ok false ∧
    verify_password "bbb" (bcryptHash 3 "bbb") = .ok true ∧
    verify_recovery_code "aaa" (bcryptHash 3 "bbb") = .ok false ∧
    verify_password "aaa" (.malformed "junk") = .error .valueError ∧
    verify_recovery_code "aaa" (.malformed "junk") = .error .valueError :=
  verify_wellformed_bool_malformed_raises "aaa" "bbb" "junk" 3 (by decide)

/-! ### C2 — pepper configuration is read per request, not at startup -/

/-- C2 (counterexample): with `APP_JWT_SECRET` set but `REFRESH_TOKEN_PEPPER`
absent, the module-import (startup) checks all pass, yet a refresh request, a
logout request, and a valid-credential login request each raise
`MissingPepperError` — a request is the first detection point. -/
theorem pepper_unchecked_at_startup_cex :
    moduleImportChecks envNoPepper = .ok () ∧
    (refresh envNoPepper 0 "newraw" "presented" emptyDB).1 = .error .missingPepper ∧
    (logout envNoPepper 0 "presented" emptyDB).1 = .error .missingPepper ∧
    (login envNoPepper 0 "newraw" "sid" "alice" "longpassword1" dbAlice).1 =
      .error .missingPepper := by
  decide

/-- C2 (amended): startup checks only the JWT signing key; with the pepper
absent the process starts, and the missing pepper is first detected when a
request computes the refresh-token HMAC — every refresh and logout request,
and any login that passes credential verification, fails with
`MissingPepperError` at request time. -/
theorem pepper_checked_per_request (env : Env) (key : String)
    (h1 : env.APP_JWT_SECRET = some key) (h2 : key ≠ "")
    (h3 : env.REFRESH_TOKEN_PEPPER = none) :
    moduleImportChecks env = .ok () ∧
    (∀ nowTs raw presented db,
      (refresh env nowTs raw presented db).1 = .error .missingPepper) ∧
    (∀ nowTs presented db,
      (logout env nowTs presented db).1 = .error .missingPepper) ∧
    (∀ nowTs raw sid username password db p ph,
      db.profiles.filter (fun q => q.username == username) = [p] →
      pwHashFalsy p.password_hash = false →
      p.password_hash = some ph →
      verify_password password ph = .ok true →
      (login env nowTs raw sid username password db).1 = .error .missingPepper) := by
  refine ⟨?_, ?_, ?_, ?_⟩
  · simp [moduleImportChecks, h1, h2]
  · intro nowTs raw presented db
    simp [refresh, refreshFinish, refreshValidate, hmac_refresh_token_hex, getPepperBytes, h3]
  · intro nowTs presented db
    simp [logout, hmac_refresh_token_hex, getPepperBytes, h3]
  · intro nowTs raw sid username password db p ph hf hfal hph hv
    rw [hph] at hfal
    simp [login, hf, scalarOneOrNone, hfal, hph, hv, hmac_refresh_token_hex,
      getPepperBytes, h3]

/-- Witness for C2's amended theorem at concrete inputs. -/
theorem pepper_checked_per_request_witness :
    moduleImportChecks envNoPepper = .ok () ∧
    (refresh envNoPepper 5 "r1" "p1" emptyDB).1 = .error .missingPepper ∧
    (logout envNoPepper 5 "p1" emptyDB).1 = .error .missingPepper ∧
    (login envNoPepper 5 "r1" "sid1" "alice" "longpassword1" dbAlice).1 =
      .error .missingPepper :=
  ⟨(pepper_checked_per_request envNoPepper "jwtkey" rfl (by decide) rfl).1,
   (pepper_checked_per_request envNoPepper "jwtkey" rfl (by decide) rfl).2.1 5 "r1" "p1" emptyDB,
   (pepper_checked_per_request envNoPepper "jwtkey" rfl (by decide) rfl).2.2.1 5 "p1" emptyDB,
   (pepper_checked_per_request envNoPepper "jwtkey" rfl (by decide) rfl).2.2.2 5 "r1" "sid1"
     "alice" "longpassword1" dbAlice pAlice (bcryptHash 1 "longpassword1")
     (by decide) (by decide) (by decide) (by decide)⟩

/-! ### C3 — register's response body does not contain the recovery codes -/

/-- C3 (code_bug): the register handler returns the raw recovery codes under
the `codes` key, but serialization through `response_model=RegisterResponse`
keeps only the model's fields (`id`, `username`, `display_name`), so the 201
body a client receives contains no codes — it is identical for two runs
generating different codes — contradicting the route's own docstring
("Returns ... raw recovery codes list ... as JSON under 'codes' key"). -/
theorem register_response_model_drops_codes :
    (register 0 "pid1" 1 ["c0", "c1", "c2", "c3", "c4", "c5", "c6", "c7", "c8", "c9"]
        (fun i => i) (fun i => toString i) "alice" "longpassword1" none emptyDB).1 =
      .ok { id := "pid1", username := "alice", display_name := none
            codes := ["c0", "c1", "c2", "c3", "c4", "c5", "c6", "c7", "c8", "c9"] } ∧
    ((register 0 "pid1" 1 ["c0", "c1", "c2", "c3", "c4", "c5", "c6", "c7", "c8", "c9"]
        (fun i => i) (fun i => toString i) "alice" "longpassword1" none emptyDB).1.map
      serializeRegisterResponse =
      .ok { id := "pid1", username := "alice", display_name := none }) ∧
    ((register 0 "pid1" 1 ["x0", "x1", "x2", "x3", "x4", "x5", "x6", "x7", "x8", "x9"]
        (fun i => i) (fun i => toString i) "alice" "longpassword1" none emptyDB).1.map
      serializeRegisterResponse =
      .ok { id := "pid1", username := "alice", display_name := none }) := by
  decide

/-! ### C5 — recover's failure statuses include a 404 existence oracle -/

/-- C5 (counterexample): a recover request presenting a valid, unconsumed,
unexpired code whose owning identity row no longer exists is answered with
HTTP 404 ("Associated profile not found"), not 401 or 400. -/
theorem recover_vanished_profile_404_cex :
    recover 10 7 "code0" "newpassword1" dbOrphanCode =
      (.error (httpErr 404 "Associated profile not found"), dbOrphanCode) := by
  decide

/-- C5 (amended): recover fails with 400 on a too-short new password and 401
on an unmatched or matched-but-expired code, but when the identity owning the
matched code no longer exists it fails with 404 — not an authentication-style
401 — leaking an existence signal. -/
theorem recover_failure_statuses (nowTs : Int) (newSalt : Nat) (rawCode newPw : String)
    (db : DB) :
    (newPw.length < 8 →
      recover nowTs newSalt rawCode newPw db =
        (.error (httpErr 400 "Password must be at least 8 characters"), db)) ∧
    (¬ newPw.length < 8 →
      findMatch rawCode (db.recovery_codes.filter (fun r => r.consumed_at.isNone)) = .ok none →
      recover nowTs newSalt rawCode newPw db =
        (.error (httpErr 401 "Invalid or already used recovery code"), db)) ∧
    (∀ matched, ¬ newPw.length < 8 →
      findMatch rawCode (db.recovery_codes.filter (fun r => r.consumed_at.isNone)) =
        .ok (some matched) →
      pyExpiredCheck matched.expires_at nowTs = true →
      recover nowTs newSalt rawCode newPw db =
        (.error (httpErr 401 "Recovery code expired"), db)) ∧
    (∀ matched, ¬ newPw.length < 8 →
      findMatch rawCode (db.recovery_codes.filter (fun r => r.consumed_at.isNone)) =
        .ok (some matched) →
      pyExpiredCheck matched.expires_at nowTs = false →
      db.profiles.filter (fun p => p.id == matched.profile_id) = [] →
      recover nowTs newSalt rawCode newPw db =
        (.error (httpErr 404 "Associated profile not found"), db)) := by
  refine ⟨?_, ?_, ?_, ?_⟩
  · intro hshort
    simp [recover, hshort]
  · intro hlen hfind
    simp [recover, hlen, hfind]
  · intro matched hlen hfind hexp
    simp [recover, hlen, hfind, hexp]
  · intro matched hlen hfind hexp hprof
    simp [recover, hlen, hfind, hexp, hprof, scalarOneOrNone]

/-- Witness for C5's amended theorem at concrete inputs. -/
theorem recover_failure_statuses_witness :
    recover 11 8 "code0" "short" dbOrphanCode =
      (.error (httpErr 400 "Password must be at least 8 characters"), dbOrphanCode) ∧
    recover 11 8 "nomatch" "newpassword2" dbOrphanCode =
      (.error (httpErr 401 "Invalid or already used recovery code"), dbOrphanCode) ∧
    recover 2000 8 "code0" "newpassword2" dbOrphanCode =
      (.error (httpErr 401 "Recovery code expired"), dbOrphanCode) ∧
    recover 11 8 "code0" "newpassword2" dbOrphanCode =
      (.error (httpErr 404 "Associated profile not found"), dbOrphanCode) :=
  ⟨(recover_failure_statuses 11 8 "code0" "short" dbOrphanCode).1 (by decide),
   (recover_failure_statuses 11 8 "nomatch" "newpassword2" dbOrphanCode).2.1
     (by decide) (by decide),
   (recover_failure_statuses 2000 8 "code0" "newpassword2" dbOrphanCode).2.2.1 rcOrphan
     (by decide) (by decide) (by decide),
   (recover_failure_statuses 11 8 "code0" "newpassword2" dbOrphanCode).2.2.2 rcOrphan
     (by decide) (by decide) (by decide) (by decide)⟩

/-! ### C7 — invalid-signature vs missing-sub 401s -/

/-- C7 (counterexample): the 401 for a token with an invalid signature has
detail "Invalid token" while the 401 for a correctly signed token without a
`sub` claim has detail "Token missing subject (sub) claim" — the two
responses are not identical, so a caller can distinguish the cases. -/
theorem resolver_distinct_details_cex :
    get_current_user envGood 5
      { claims := { sub := some "alice-id", iat := some 0, exp := some 1000, username := none }
        signedWith := "forged" } dbAlice =
      .error { status := 401, detail := .text "Invalid token", hasBearerHeader := true } ∧
    get_current_user envGood 5
      { claims := { sub := none, iat := some 0, exp := some 1000, username := none }
        signedWith := "jwtkey" } dbAlice =
      .error { status := 401, detail := .text "Token missing subject (sub) claim"
               hasBearerHeader := true } ∧
    ({ status := 401, detail := .text "Invalid token", hasBearerHeader := true } : HttpError) ≠
      { status := 401, detail := .text "Token missing subject (sub) claim"
        hasBearerHeader := true } := by
  decide

/-- C7 (amended): both rejections are 401s carrying the `WWW-Authenticate:
Bearer` header and no claim payload, but their detail strings differ
("Invalid token" vs "Token missing subject (sub) claim"), so the two
responses are not identical. -/
theorem resolver_401_details (env : Env) (key : String) (nowTs : Int) (tok : Jwt) (db : DB)
    (hk : env.APP_JWT_SECRET = some key) :
    (tok.signedWith ≠ key →
      get_current_user env nowTs tok db =
        .error { status := 401, detail := .text "Invalid token", hasBearerHeader := true }) ∧
    (tok.signedWith = key →
      (match tok.claims.exp with | some e => decide (e ≤ nowTs) | none => false) = false →
      (tok.claims.sub = none ∨ tok.claims.sub = some "") →
      get_current_user env nowTs tok db =
        .error { status := 401, detail := .text "Token missing subject (sub) claim"
                 hasBearerHeader := true }) ∧
    HttpDetail.text "Invalid token" ≠ HttpDetail.text "Token missing subject (sub) claim" := by
  refine ⟨?_, ?_, by decide⟩
  · intro hsig
    simp [get_current_user, jwtDecode, hk, hsig]
  · intro hsig hexp hsub
    cases hexp2 : tok.claims.exp with
    | none =>
      cases hsub with
      | inl h => simp [get_current_user, jwtDecode, hk, hsig, hexp2, h]
      | inr h => simp [get_current_user, jwtDecode, hk, hsig, hexp2, h]
    | some e =>
      rw [hexp2] at hexp
      simp at hexp
      have hle : ¬ e ≤ nowTs := by omega
      cases hsub with
      | inl h => simp [get_current_user, jwtDecode, hk, hsig, hexp2, hle, h]
      | inr h => simp [get_current_user, jwtDecode, hk, hsig, hexp2, hle, h]

/-- Witness for C7's amended theorem at concrete inputs. -/
theorem resolver_401_details_witness :
    get_current_user envGood 7
      { claims := { sub := some "alice-id", iat := some 0, exp := some 1000, username := none }
        signedWith := "wrongkey" } dbAlice =
      .error { status := 401, detail := .text "Invalid token", hasBearerHeader := true } ∧
    get_current_user envGood 7
      { claims := { sub := none, iat := some 0, exp := some 1000, username := none }
        signedWith := "jwtkey" } dbAlice =
      .error { status := 401, detail := .text "Token missing subject (sub) claim"
               hasBearerHeader := true } :=
  ⟨(resolver_401_details envGood "jwtkey" 7
      { claims := { sub := some "alice-id", iat := some 0, exp := some 1000, username := none }
        signedWith := "wrongkey" } dbAlice rfl).1 (by decide),
   (resolver_401_details envGood "jwtkey" 7
      { claims := { sub := none, iat := some 0, exp := some 1000, username := none }
        signedWith := "jwtkey" } dbAlice rfl).2.1 rfl (by decide) (Or.inl rfl)⟩

/-! ### C8 — expired refresh tokens are rejected unchanged -/

/-- C8 (confirmed): when the digest lookup (with `revoked == False`) selects a
session row whose `expires_at` lies strictly in the past, refresh fails with
401 "Refresh token expired" and the state is returned unchanged — the row's
digest and `expires_at` are not rewritten. -/
theorem refresh_expired_rejected (env : Env) (pepper : String) (nowTs e : Int)
    (newRaw presented : String) (db : DB) (s : SessionRow)
    (h1 : env.REFRESH_TOKEN_PEPPER = some pepper) (h2 : pepper ≠ "")
    (h3 : db.sessions.filter
      (fun r => r.refresh_token_hash == hmacSha256Hex pepper presented &&
        r.revoked == false) = [s])
    (_h4 : s.revoked = false)
    (h5 : s.expires_at = some e) (h6 : e < nowTs) :
    refresh env nowTs newRaw presented db =
      (.error (httpErr 401 "Refresh token expired"), db) := by
  have h3n : db.sessions.filter
      (fun r => r.refresh_token_hash == hmacSha256Hex pepper presented && !r.revoked) = [s] := by
    simpa using h3
  simp [refresh, refreshFinish, refreshValidate, hmac_refresh_token_hex, getPepperBytes,
    h1, h2, h3n, scalarOneOrNone, pyExpiredCheck, h5, h6]

/-- Witness for C8's theorem at concrete inputs. -/
theorem refresh_expired_rejected_witness :
    refresh envGood 100 "tN" "t0" dbExpired =
      (.error (httpErr 401 "Refresh token expired"), dbExpired) :=
  refresh_expired_rejected envGood "pepper" 100 10 "tN" "t0" dbExpired sExpired
    rfl (by decide) (by decide) rfl rfl (by decide)

/-! ### C10 — logout is idempotent and unconditional -/

/-- C10 (confirmed): logout always succeeds with 204 and no body — the update
sets `revoked` on exactly the rows matching the presented digest, regardless
of their expiry or prior revocation state (no-op when none matches) — and a
second identical logout returns the same outcome and leaves the state as the
first call produced it. -/
theorem logout_idempotent_always_204 (env : Env) (pepper : String) (nowTs : Int)
    (presented : String) (db : DB)
    (h1 : env.REFRESH_TOKEN_PEPPER = some pepper) (h2 : pepper ≠ "") :
    (logout env nowTs presented db).1 = .ok () ∧
    (logout env nowTs presented db).2.sessions =
      db.sessions.map (fun r =>
        if r.refresh_token_hash == hmacSha256Hex pepper presented then
          { r with revoked := true, updated_at := nowTs }
        else r) ∧
    logout env nowTs presented (logout env nowTs presented db).2 =
      logout env nowTs presented db := by
  have hh : hmac_refresh_token_hex env presented none =
      .ok (hmacSha256Hex pepper presented) := by
    simp [hmac_refresh_token_hex, getPepperBytes, h1, h2]
  refine ⟨by simp [logout, hh], by simp [logout, hh], ?_⟩
  have hidem : ∀ x ∈ db.sessions.map (fun r =>
      if r.refresh_token_hash == hmacSha256Hex pepper presented then
        { r with revoked := true, updated_at := nowTs } else r),
      (fun r : SessionRow =>
        if r.refresh_token_hash == hmacSha256Hex pepper presented then
          { r with revoked := true, updated_at := nowTs } else r) x = x := by
    intro x hx
    rcases List.mem_map.mp hx with ⟨r, _, rfl⟩
    by_cases hc : (r.refresh_token_hash == hmacSha256Hex pepper presented) = true
    · simp [hc]
    · simp [hc]
  simp only [logout, hh]
  rw [map_fixes_of_mem _ _ hidem]

/-- Witness for C10's theorem at concrete inputs. -/
theorem logout_idempotent_always_204_witness :
    (logout envGood 100 "t0" dbSession).1 = .ok () ∧
    (logout envGood 100 "t0" dbSession).2.sessions =
      dbSession.sessions.map (fun r =>
        if r.refresh_token_hash == hmacSha256Hex "pepper" "t0" then
          { r with revoked := true, updated_at := 100 }
        else r) ∧
    logout envGood 100 "t0" (logout envGood 100 "t0" dbSession).2 =
      logout envGood 100 "t0" dbSession :=
  logout_idempotent_always_204 envGood "pepper" 100 "t0" dbSession rfl (by decide)

/-! ### C4 — login reports success after a rolled-back session insert -/

/-- C4 (counterexample): when the new token's digest already exists on a
session row, login's commit raises `IntegrityError`, the handler rolls back —
and still returns HTTP 200 handing out that refresh token, with the state
unchanged (the new session row was silently discarded). -/
theorem login_collision_200_cex :
    login envGood 50 "t0" "sid9" "alice" "longpassword1" dbSession =
      (.ok { access_token := create_access_token "jwtkey" 50 "alice-id" (some "alice")
             refresh_token := "t0", expires_in := 900, token_type := "bearer" }, dbSession) := by
  decide

/-- C4 (amended): on a refresh-token-digest collision at login the existing
row is not overwritten and the new session row is rolled back, but login does
not treat this as a failure: it reports HTTP 200 and hands the client the
colliding refresh token even though its session row was discarded. -/
theorem login_collision_returns_200 (env : Env) (pepper : String) (nowTs : Int)
    (newRaw newSid username password : String) (db : DB) (p : ProfileRow) (ph : BcryptDigest)
    (h1 : env.REFRESH_TOKEN_PEPPER = some pepper) (h2 : pepper ≠ "")
    (h3 : db.profiles.filter (fun q => q.username == username) = [p])
    (h4 : p.password_hash = some ph)
    (h5 : pwHashFalsy (some ph) = false)
    (h6 : verify_password password ph = .ok true)
    (h7 : db.sessions.any
      (fun r => r.refresh_token_hash == hmacSha256Hex pepper newRaw) = true) :
    login env nowTs newRaw newSid username password db =
      (.ok { access_token := create_access_token (env.APP_JWT_SECRET.getD "") nowTs p.id
               (some p.username)
             refresh_token := newRaw, expires_in := ACCESS_EXPIRES_MINUTES * 60
             token_type := "bearer" }, db) := by
  simp [login, h3, scalarOneOrNone, h4, h5, h6, hmac_refresh_token_hex, getPepperBytes,
    h1, h2, h7]

/-- Witness for C4's amended theorem at concrete inputs. -/
theorem login_collision_returns_200_witness :
    login envGood 50 "t0" "sid9" "alice" "longpassword1" dbSession =
      (.ok { access_token := create_access_token "jwtkey" 50 "alice-id" (some "alice")
             refresh_token := "t0", expires_in := 900, token_type := "bearer" }, dbSession) :=
  login_collision_returns_200 envGood "pepper" 50 "t0" "sid9" "alice" "longpassword1"
    dbSession pAlice (bcryptHash 1 "longpassword1") rfl (by decide) (by decide) rfl rfl
    (by decide) (by decide)

/-! ### C9 — recovery codes are single-use -/

/-- C9 (confirmed): a successful recover marks exactly the matched row
consumed — every other recovery-code row, in particular the same identity's
other codes, is left unchanged and stays active — and presenting the same raw
code a second time fails with 401 "Invalid or already used recovery code". -/
theorem recovery_code_single_use
    (nowTs1 nowTs2 : Int) (salt1 salt2 : Nat) (rawCode newPw1 newPw2 : String)
    (db : DB) (matched : RecoveryRow) (profile : ProfileRow)
    (hpw1 : ¬ newPw1.length < 8) (hpw2 : ¬ newPw2.length < 8)
    (hfind : findMatch rawCode (db.recovery_codes.filter (fun r => r.consumed_at.isNone)) =
      .ok (some matched))
    (hexp : pyExpiredCheck matched.expires_at nowTs1 = false)
    (hprof : db.profiles.filter (fun p => p.id == matched.profile_id) = [profile])
    (honly : ∀ r ∈ db.recovery_codes, r.id ≠ matched.id →
      verify_recovery_code rawCode r.code_hash = .ok false) :
    (recover nowTs1 salt1 rawCode newPw1 db).1 =
      .ok "Password updated. You may now login using your username and new password." ∧
    (recover nowTs1 salt1 rawCode newPw1 db).2.recovery_codes =
      db.recovery_codes.map (fun r =>
        if r.id == matched.id then { r with consumed_at := some nowTs1 } else r) ∧
    (∀ r ∈ db.recovery_codes, r.id ≠ matched.id →
      r ∈ (recover nowTs1 salt1 rawCode newPw1 db).2.recovery_codes) ∧
    (recover nowTs2 salt2 rawCode newPw2 (recover nowTs1 salt1 rawCode newPw1 db).2).1 =
      .error (httpErr 401 "Invalid or already used recovery code") := by
  have hrun : recover nowTs1 salt1 rawCode newPw1 db =
      (.ok "Password updated. You may now login using your username and new password.",
       { db with
           profiles := db.profiles.map (fun p =>
             if p.id == profile.id then
               { p with password_hash := some (hash_password salt1 newPw1) } else p)
           recovery_codes := db.recovery_codes.map (fun r =>
             if r.id == matched.id then { r with consumed_at := some nowTs1 } else r) }) := by
    simp [recover, hpw1, hfind, hexp, hprof, scalarOneOrNone]
  refine ⟨by rw [hrun], by rw [hrun], ?_, ?_⟩
  · intro r hr hne
    rw [hrun]
    have hfr : (if r.id == matched.id then { r with consumed_at := some nowTs1 } else r) = r := by
      simp [hne]
    have hm := List.mem_map_of_mem (fun r : RecoveryRow =>
      if r.id == matched.id then { r with consumed_at := some nowTs1 } else r) hr
    simp only [hfr] at hm
    exact hm
  · rw [hrun]
    have hnone : findMatch rawCode
        ((db.recovery_codes.map (fun r =>
          if r.id == matched.id then { r with consumed_at := some nowTs1 } else r)).filter
          (fun r => r.consumed_at.isNone)) = .ok none := by
      apply findMatch_none
      intro r hr
      rcases List.mem_filter.mp hr with ⟨hmem, hact⟩
      rcases List.mem_map.mp hmem with ⟨r0, hr0, rfl⟩
      by_cases hc : (r0.id == matched.id) = true
      · exfalso
        simp [hc] at hact
      · have hfr : (if r0.id == matched.id then { r0 with consumed_at := some nowTs1 }
            else r0) = r0 := by
          simp [hc]
        rw [hfr]
        exact honly r0 hr0 (by simpa using hc)
    rw [recover_no_active_match nowTs2 salt2 rawCode newPw2 _ hpw2 hnone]

/-- Witness for C9's theorem at concrete inputs: the matched row `rcM` is
consumed, the sibling code `rcOther1` survives unchanged, and the second
consume fails with 401. -/
theorem recovery_code_single_use_witness :
    (recover 10 4 "codeM" "newpassword1" dbRecovery).1 =
      .ok "Password updated. You may now login using your username and new password." ∧
    (recover 10 4 "codeM" "newpassword1" dbRecovery).2.recovery_codes =
      dbRecovery.recovery_codes.map (fun r =>
        if r.id == rcM.id then { r with consumed_at := some 10 } else r) ∧
    rcOther1 ∈ (recover 10 4 "codeM" "newpassword1" dbRecovery).2.recovery_codes ∧
    (recover 20 9 "codeM" "newpassword2" (recover 10 4 "codeM" "newpassword1" dbRecovery).2).1 =
      .error (httpErr 401 "Invalid or already used recovery code") :=
  ⟨(recovery_code_single_use 10 20 4 9 "codeM" "newpassword1" "newpassword2" dbRecovery rcM
      pAlice (by decide) (by decide) (by decide) (by decide) (by decide) (by decide)).1,
   (recovery_code_single_use 10 20 4 9 "codeM" "newpassword1" "newpassword2" dbRecovery rcM
      pAlice (by decide) (by decide) (by decide) (by decide) (by decide) (by decide)).2.1,
   (recovery_code_single_use 10 20 4 9 "codeM" "newpassword1" "newpassword2" dbRecovery rcM
      pAlice (by decide) (by decide) (by decide) (by decide) (by decide) (by decide)).2.2.1 rcOther1 (by decide) (by decide),
   (recovery_code_single_use 10 20 4 9 "codeM" "newpassword1" "newpassword2" dbRecovery rcM
      pAlice (by decide) (by decide) (by decide) (by decide) (by decide) (by decide)).2.2.2⟩

/-! ### C1 — concurrent rotation has a single winner but no 401 loser -/

/-- C1 (counterexample): in the racing interleaving of two refresh calls
presenting the same token, the loser does not fail with 401 — it also returns
HTTP 200 with its freshly generated refresh token even though its conditional
update matched zero rows. Only afterwards does the difference show: the
loser's token is dead (presenting it yields 401) while the winner's token
rotates normally. -/
theorem refresh_race_loser_200_cex :
    (refreshRace envGood 100 "tA" "tB" "t0" dbSession).2.1 =
      .ok { access_token := create_access_token "jwtkey" 100 "alice-id" (some "alice")
            refresh_token := "tB", expires_in := 900, token_type := "bearer" } ∧
    (refresh envGood 200 "tC" "tB" (refreshRace envGood 100 "tA" "tB" "t0" dbSession).2.2).1 =
      .error (httpErr 401 "Invalid or revoked refresh token") ∧
    (refresh envGood 200 "tC" "tA" (refreshRace envGood 100 "tA" "tB" "t0" dbSession).2.2).1 =
      .ok { access_token := create_access_token "jwtkey" 200 "alice-id" (some "alice")
            refresh_token := "tC", expires_in := 900, token_type := "bearer" } := by
  decide

/-- C1 (amended): of two racing refresh calls on the same token, only the
first committer's digest is persisted — the final state is a single rotation
to the winner's digest, and the loser's conditional update changes nothing —
but the handler never checks the rows-affected count, so the loser also
returns HTTP 200; its refresh token is unusable (a later refresh with it
fails 401) rather than rejected up front. -/
theorem refresh_race_single_winner
    (env : Env) (pepper : String) (nowTs nowTs2 : Int) (rawA rawB rawC presented : String)
    (db : DB) (s : SessionRow) (p : ProfileRow)
    (hpep : env.REFRESH_TOKEN_PEPPER = some pepper) (hne : pepper ≠ "")
    (hfil : db.sessions.filter
      (fun r => r.refresh_token_hash == hmacSha256Hex pepper presented &&
        r.revoked == false) = [s])
    (hexp : pyExpiredCheck s.expires_at nowTs = false)
    (hprof : db.profiles.filter (fun q => some q.id == s.profile_id) = [p])
    (hA : hmacSha256Hex pepper rawA ≠ hmacSha256Hex pepper presented)
    (hBA : hmacSha256Hex pepper rawB ≠ hmacSha256Hex pepper rawA)
    (hBdb : ∀ r ∈ db.sessions, r.refresh_token_hash ≠ hmacSha256Hex pepper rawB) :
    (refreshRace env nowTs rawA rawB presented db).1 =
      .ok { access_token := create_access_token (env.APP_JWT_SECRET.getD "") nowTs p.id
              (some p.username)
            refresh_token := rawA, expires_in := ACCESS_EXPIRES_MINUTES * 60
            token_type := "bearer" } ∧
    (refreshRace env nowTs rawA rawB presented db).2.1 =
      .ok { access_token := create_access_token (env.APP_JWT_SECRET.getD "") nowTs p.id
              (some p.username)
            refresh_token := rawB, expires_in := ACCESS_EXPIRES_MINUTES * 60
            token_type := "bearer" } ∧
    (refreshRace env nowTs rawA rawB presented db).2.2 =
      { db with sessions := db.sessions.map (fun r =>
          if r.refresh_token_hash == hmacSha256Hex pepper presented then
            rotateRow nowTs (hmacSha256Hex pepper rawA) r else r) } ∧
    (refresh env nowTs2 rawC rawB (refreshRace env nowTs rawA rawB presented db).2.2).1 =
      .error (httpErr 401 "Invalid or revoked refresh token") := by
  have hfn : db.sessions.filter
      (fun r => r.refresh_token_hash == hmacSha256Hex pepper presented && !r.revoked) = [s] := by
    simpa using hfil
  have hval : refreshValidate env nowTs presented db =
      .ok (hmacSha256Hex pepper presented, s, p) := by
    simp [refreshValidate, hmac_refresh_token_hex, getPepperBytes, hpep, hne, hfn,
      scalarOneOrNone, hexp, hprof]
  have hhA : hmac_refresh_token_hex env rawA none = .ok (hmacSha256Hex pepper rawA) := by
    simp [hmac_refresh_token_hex, getPepperBytes, hpep, hne]
  have hhB : hmac_refresh_token_hex env rawB none = .ok (hmacSha256Hex pepper rawB) := by
    simp [hmac_refresh_token_hex, getPepperBytes, hpep, hne]
  have hrace : refreshRace env nowTs rawA rawB presented db =
      (.ok { access_token := create_access_token (env.APP_JWT_SECRET.getD "") nowTs p.id
               (some p.username)
             refresh_token := rawA, expires_in := ACCESS_EXPIRES_MINUTES * 60
             token_type := "bearer" },
       .ok { access_token := create_access_token (env.APP_JWT_SECRET.getD "") nowTs p.id
               (some p.username)
             refresh_token := rawB, expires_in := ACCESS_EXPIRES_MINUTES * 60
             token_type := "bearer" },
       { db with sessions := db.sessions.map (fun r =>
           if r.refresh_token_hash == hmacSha256Hex pepper presented then
             rotateRow nowTs (hmacSha256Hex pepper rawA) r else r) }) := by
    simp only [refreshRace, hval, refreshFinish, hhA, hhB, refreshUpdateStep]
    simp
    intro a _ hcond
    by_cases hc : a.refresh_token_hash = hmacSha256Hex pepper presented
    · rw [if_pos hc] at hcond ⊢
      simp [rotateRow] at hcond
      exact absurd hcond hA
    · rw [if_neg hc] at hcond
      exact absurd hcond hc
  have hfinal : ({ db with sessions := db.sessions.map (fun r =>
      if r.refresh_token_hash == hmacSha256Hex pepper presented then
        rotateRow nowTs (hmacSha256Hex pepper rawA) r else r) } : DB).sessions.filter
      (fun r => r.refresh_token_hash == hmacSha256Hex pepper rawB && !r.revoked) = [] := by
    rw [List.filter_eq_nil_iff]
    intro a ha
    rcases List.mem_map.mp ha with ⟨r0, hr0, rfl⟩
    by_cases hc : (r0.refresh_token_hash == hmacSha256Hex pepper presented) = true
    · simp [hc, rotateRow]
      intro hEq
      exact absurd hEq.symm hBA
    · simp [hc]
      intro hEq
      exact absurd hEq (hBdb r0 hr0)
  have hdb2 : (refreshRace env nowTs rawA rawB presented db).2.2 =
      { db with sessions := db.sessions.map (fun r =>
          if r.refresh_token_hash == hmacSha256Hex pepper presented then
            rotateRow nowTs (hmacSha256Hex pepper rawA) r else r) } := by
    rw [hrace]
  refine ⟨by rw [hrace], by rw [hrace], hdb2, ?_⟩
  rw [hdb2, refresh_no_active_match env pepper nowTs2 rawC rawB _ hpep hne hfinal]

/-- Witness for C1's amended theorem at concrete inputs. -/
theorem refresh_race_single_winner_witness :
    (refreshRace envGood 100 "tA" "tB" "t0" dbSession).1 =
      .ok { access_token := create_access_token "jwtkey" 100 "alice-id" (some "alice")
            refresh_token := "tA", expires_in := 900, token_type := "bearer" } ∧
    (refreshRace envGood 100 "tA" "tB" "t0" dbSession).2.1 =
      .ok { access_token := create_access_token "jwtkey" 100 "alice-id" (some "alice")
            refresh_token := "tB", expires_in := 900, token_type := "bearer" } ∧
    (refreshRace envGood 100 "tA" "tB" "t0" dbSession).2.2 =
      { dbSession with sessions := dbSession.sessions.map (fun r =>
          if r.refresh_token_hash == hmacSha256Hex "pepper" "t0" then
            rotateRow 100 (hmacSha256Hex "pepper" "tA") r else r) } ∧
    (refresh envGood 200 "tC" "tB" (refreshRace envGood 100 "tA" "tB" "t0" dbSession).2.2).1 =
      .error (httpErr 401 "Invalid or revoked refresh token") :=
  refresh_race_single_winner envGood "pepper" 100 200 "tA" "tB" "tC" "t0" dbSession sActive
    pAlice rfl (by decide) (by decide) (by decide) (by decide) (by decide) (by decide)
    (by decide)

end HonestReviews
